import Mathlib

/-!
Shallow embedding of the Clinical Metrics Engine of `src/app.py`
(Health-Dashboard): the four score calculators, the two categorizers, the
lab-history aggregation block and the CGM aggregation block.

Conventions of the embedding:
* A Python numeric value (which may be `None` or the float `nan`) is
  modelled by `PyNum` (rational payload) and, where `math.sqrt` forces real
  arithmetic, by `PyRNum` (real payload).  IEEE comparisons against `nan`
  are false and arithmetic on `nan` yields `nan`; both behaviours are
  written into each definition at exactly the points the source exercises
  them.
* Python decimal literals are taken at their decimal value, as exact
  rationals (the real-arithmetic idealization of the spec's 1e-9
  tolerance).
* `round(x, 1)` is CPython/NumPy rounding: to the nearest tenth, ties to
  even.
* `pandas.DataFrame.sort_values("timestamp")` is modelled as a stable sort
  by timestamp (`List.insertionSort`); timestamps are modelled as integers.
-/

/-- A Python value flowing through the scalar calculators: `None`, the
float `nan`, or an (idealized, rational) float. -/
inductive PyNum where
  | null : PyNum
  | nan : PyNum
  | num : ℚ → PyNum
deriving DecidableEq

/-- A Python float value in positions where the source applies
`math.sqrt`, so the idealized payload is a real number. -/
inductive PyRNum where
  | null : PyRNum
  | nan : PyRNum
  | num : ℝ → PyRNum

/-- The Python test `v <= 0` on a float: false for `nan` (IEEE), decided
for numbers.  The `null` case never reaches this comparison in the source
because the `is None` test comes first. -/
def PyNum.leZero : PyNum → Bool
  | .num q => decide (q ≤ 0)
  | _ => false

/-- `fib4` (src/app.py lines 9-12): `None` if any argument is `None` or if
`alt <= 0` or `platelets <= 0`; otherwise
`(age * ast) / (platelets * math.sqrt(alt))`.  A `nan` argument passes the
guards (IEEE comparisons with `nan` are false) and propagates to a `nan`
result. -/
noncomputable def fib4 (age ast alt platelets : PyNum) : PyRNum :=
  if age = .null ∨ ast = .null ∨ alt = .null ∨ platelets = .null then .null
  else if alt.leZero ∨ platelets.leZero then .null
  else
    match age, ast, alt, platelets with
    | .num a, .num s, .num l, .num p => .num ((a * s) / (p * Real.sqrt l))
    | _, _, _, _ => .nan

/-- The result of a call to `nfs`, which can raise. -/
inductive NfsResult where
  | raised : NfsResult
  | ret : PyNum → NfsResult
deriving DecidableEq

/-- `nfs` (src/app.py lines 14-18): `None` if any of the six numeric
arguments is `None`; otherwise the linear formula with the unguarded
division `ast/alt`.  CPython float semantics of that division: a zero
divisor raises `ZeroDivisionError` (modelled by `.raised`); a `nan`
anywhere in the arithmetic yields `nan`.  (In the uploaded-table path the
cells are NumPy scalars, whose division by zero yields an infinity with a
warning instead of raising; that case is not exercised by any theorem
below, all table rows used there have `nan` or nonzero `ALT`.) -/
def nfs (age bmi : PyNum) (has_t2d : Bool) (ast alt platelets albumin : PyNum) :
    NfsResult :=
  if age = .null ∨ bmi = .null ∨ ast = .null ∨ alt = .null ∨ platelets = .null ∨
      albumin = .null then .ret .null
  else if alt = .num 0 then .raised
  else
    match age, bmi, ast, alt, platelets, albumin with
    | .num a, .num b, .num s, .num l, .num p, .num al =>
        .ret (.num (-1675/1000 + 37/1000 * a + 94/1000 * b
          + 113/100 * (if has_t2d then 1 else 0)
          + 99/100 * (s / l) - 13/1000 * p - 66/100 * al))
    | _, _, _, _, _, _ => .ret .nan

/-- `homa_ir` (src/app.py lines 20-22): `None` if either argument is
`None`, else `(insulin * glucose) / 405.0`, with `nan` propagation. -/
def homa_ir (glu_mg_dl insulin_u_ml : PyNum) : PyNum :=
  if glu_mg_dl = .null ∨ insulin_u_ml = .null then .null
  else
    match glu_mg_dl, insulin_u_ml with
    | .num g, .num i => .num (i * g / 405)
    | _, _ => .nan

/-- `eAG_from_a1c` (src/app.py lines 24-26): `None` if `a1c` is `None`,
else `28.7 * a1c - 46.7`, with `nan` propagation. -/
def eAG_from_a1c (a1c : PyNum) : PyNum :=
  match a1c with
  | .null => .null
  | .nan => .nan
  | .num a => .num (287/10 * a - 467/10)

/-- `categorize_fib4` (src/app.py lines 28-32).  The FIB-4 score contains a
square root, so the input is `PyRNum`.  The source returns the placeholder
string for `None` (this is how the spec's `Unknown` category is realised).
With a `nan` score both IEEE tests `x < 1.3` and `x <= 2.67` are false, so
the source falls through to `"High"`. -/
noncomputable def categorize_fib4 (x : PyRNum) : String :=
  match x with
  | .null => "—"
  | .nan => "High"
  | .num q =>
      if q < 13/10 then "Low" else if q ≤ 267/100 then "Indeterminate" else "High"

/-- `categorize_nfs` (src/app.py lines 34-38), same shape with the NFS
band boundaries. -/
def categorize_nfs (x : PyNum) : String :=
  match x with
  | .null => "—"
  | .nan => "High"
  | .num q =>
      if q < -1455/1000 then "Low" else if q ≤ 676/1000 then "Indeterminate" else "High"

/-- Python `round` to an integer: to the nearest integer, ties to even.
The model evaluates the floats of the source at their exact decimal value,
so a tie is an exact one-half fraction. -/
def roundHalfEven (x : ℚ) : ℤ :=
  if x - ⌊x⌋ = 1/2 then (if ⌊x⌋ % 2 = 0 then ⌊x⌋ else ⌊x⌋ + 1) else round x

/-- Python `round(x, 1)`. -/
def round1 (x : ℚ) : ℚ := (roundHalfEven (10 * x) : ℚ) / 10

/-- Python `round` to an integer on a real value (ties to even). -/
noncomputable def roundHalfEvenR (x : ℝ) : ℤ :=
  if x - ⌊x⌋ = 1/2 then (if ⌊x⌋ % 2 = 0 then ⌊x⌋ else ⌊x⌋ + 1) else round x

/-- Python `round(x, 1)` on a real value. -/
noncomputable def round1R (x : ℝ) : ℝ := (roundHalfEvenR (10 * x) : ℝ) / 10

/-- Python truthiness of a score value (the guards `if scores[...]` and
`if mean_glu` in the source): `None` and `0.0` are falsy; `nan` and every
other float are truthy. -/
def pyTruthy : PyNum → Bool
  | .null => false
  | .nan => true
  | .num q => decide (¬ q = 0)

/-- What one `st.metric` call renders (src/app.py lines 66-74): the em-dash
placeholder, the text `nan`, or a formatted number.  A formatted number is
recorded as the integer of rendered decimal units: hundredths for the
`:.2f` metrics, whole units for the `:.0f` eAG metric. -/
inductive Rendered where
  | dash : Rendered
  | nanText : Rendered
  | text : ℤ → Rendered
deriving DecidableEq

/-- The rendering `f"{v:.2f}" if v else "—"` of src/app.py lines 67, 69 and
71 (FIB-4, NFS, HOMA-IR metrics). -/
def renderScore2 (v : PyNum) : Rendered :=
  if pyTruthy v then
    match v with
    | .nan => .nanText
    | .num q => .text (roundHalfEven (100 * q))
    | .null => .dash
  else .dash

/-- The rendering `f"{v:.0f}" if v else "—"` of src/app.py line 73 (the eAG
metric is formatted with zero decimals, unlike the other three). -/
def renderScore0 (v : PyNum) : Rendered :=
  if pyTruthy v then
    match v with
    | .nan => .nanText
    | .num q => .text (roundHalfEven q)
    | .null => .dash
  else .dash

/-- One parsed row of the lab-history CSV (src/app.py lines 80 and 84):
after `pd.read_csv` every numeric cell is a float, with `nan` for a missing
or unparseable cell (never `None`); `has_t2d` is the `bool(...)` of its
cell. -/
structure LabRow where
  timestamp : ℤ
  age_years : PyNum
  AST : PyNum
  ALT : PyNum
  platelets_10e9_L : PyNum
  albumin_g_dL : PyNum
  BMI : PyNum
  has_t2d : Bool
  fasting_glucose_mg_dL : PyNum
  fasting_insulin_u_mL : PyNum
  HbA1c_pct : PyNum
deriving DecidableEq

/-- One row of the aggregated labs frame, the four score columns added in
src/app.py lines 85-88 next to the timestamp. -/
structure LabOut where
  timestamp : ℤ
  FIB4 : PyRNum
  NFS : NfsResult
  HOMA_IR : PyNum
  eAG_mg_dl : PyNum

/-- Comparison of lab rows by timestamp. -/
def labLE (a b : LabRow) : Prop := a.timestamp ≤ b.timestamp

instance : DecidableRel labLE :=
  fun a b => inferInstanceAs (Decidable (a.timestamp ≤ b.timestamp))

instance : IsTotal LabRow labLE := ⟨fun a b => le_total a.timestamp b.timestamp⟩

instance : IsTrans LabRow labLE := ⟨fun _ _ _ h h2 => le_trans h h2⟩

/-- `labs.sort_values("timestamp")` (src/app.py line 84), as a stable sort
by timestamp. -/
def labsSort (rows : List LabRow) : List LabRow := List.insertionSort labLE rows

/-- The four `.apply`-computed score columns of one row (src/app.py lines
85-88). -/
noncomputable def scoreRow (r : LabRow) : LabOut :=
  ⟨r.timestamp,
   fib4 r.age_years r.AST r.ALT r.platelets_10e9_L,
   nfs r.age_years r.BMI r.has_t2d r.AST r.ALT r.platelets_10e9_L r.albumin_g_dL,
   homa_ir r.fasting_glucose_mg_dL r.fasting_insulin_u_mL,
   eAG_from_a1c r.HbA1c_pct⟩

/-- The lab-history aggregation block (src/app.py lines 83-90): sort by
timestamp, then compute the four scores row-wise. -/
noncomputable def labsAggregate (rows : List LabRow) : List LabOut :=
  (labsSort rows).map scoreRow

/-- One parsed row of the CGM CSV (src/app.py lines 93 and 97). -/
structure CgmRow where
  timestamp : ℤ
  glucose_mg_dl : ℚ
deriving DecidableEq

/-- Comparison of CGM rows by timestamp. -/
def cgmLE (a b : CgmRow) : Prop := a.timestamp ≤ b.timestamp

instance : DecidableRel cgmLE :=
  fun a b => inferInstanceAs (Decidable (a.timestamp ≤ b.timestamp))

instance : IsTotal CgmRow cgmLE := ⟨fun a b => le_total a.timestamp b.timestamp⟩

instance : IsTrans CgmRow cgmLE := ⟨fun _ _ _ h h2 => le_trans h h2⟩

/-- `cgm.sort_values("timestamp")` (src/app.py line 97). -/
def cgmSort (rows : List CgmRow) : List CgmRow := List.insertionSort cgmLE rows

/-- The sorted glucose column. -/
def cgmGlucose (rows : List CgmRow) : List ℚ :=
  (cgmSort rows).map (fun r => r.glucose_mg_dl)

/-- `pandas.Series.mean()`: `nan` on an empty column, else the arithmetic
mean. -/
def listMean (xs : List ℚ) : PyNum :=
  if xs.length = 0 then .nan else .num (xs.sum / xs.length)

/-- `cgm["in_range"] = cgm["glucose_mg_dl"].between(70,180).astype(int)`
(src/app.py line 98): the inclusive band, as 0/1 integers. -/
def cgmInRange (rows : List CgmRow) : List ℚ :=
  (cgmGlucose rows).map (fun g => if 70 ≤ g ∧ g ≤ 180 then 1 else 0)

/-- `tir = round(100*cgm["in_range"].mean(), 1)` (src/app.py line 99);
`100*nan` and `round(nan, 1)` are `nan`. -/
def cgmTir (rows : List CgmRow) : PyNum :=
  match listMean (cgmInRange rows) with
  | .num m => .num (round1 (100 * m))
  | v => v

/-- `mean_glu = round(cgm["glucose_mg_dl"].mean(), 1)` (src/app.py line
100). -/
def cgmMeanGlu (rows : List CgmRow) : PyNum :=
  match listMean (cgmGlucose rows) with
  | .num m => .num (round1 m)
  | v => v

/-- `cgm["glucose_mg_dl"].std()` (src/app.py line 101): the pandas default
is the sample convention (`ddof=1`), `nan` on fewer than two values. -/
noncomputable def cgmStd (rows : List CgmRow) : PyRNum :=
  if (cgmGlucose rows).length ≤ 1 then .nan
  else
    .num (Real.sqrt
      (((cgmGlucose rows).map
          (fun (g : ℚ) => ((g : ℝ) - (((cgmGlucose rows).sum : ℚ) : ℝ) /
            (cgmGlucose rows).length) ^ 2)).sum /
        (((cgmGlucose rows).length : ℝ) - 1)))

/-- `cv = round(100*cgm[...].std()/cgm[...].mean(), 1) if mean_glu else
None` (src/app.py line 101): the guard is Python truthiness of the ROUNDED
mean; a `nan` in `100*std/mean` (empty or single-reading column) propagates
through `round`. -/
noncomputable def cgmCv (rows : List CgmRow) : Option PyRNum :=
  if pyTruthy (cgmMeanGlu rows) then
    some (match cgmStd rows, listMean (cgmGlucose rows) with
      | .num sd, .num m => .num (round1R (100 * sd / m))
      | _, _ => .nan)
  else none

/-- `lows = (cgm["glucose_mg_dl"] < 70).sum()` (src/app.py line 104). -/
def cgmLows (rows : List CgmRow) : ℕ :=
  (cgmGlucose rows).countP (fun g => decide (g < 70))

/-- `highs = (cgm["glucose_mg_dl"] > 250).sum()` (src/app.py line 105). -/
def cgmHighs (rows : List CgmRow) : ℕ :=
  (cgmGlucose rows).countP (fun g => decide (g > 250))

/-- The CGM summary surfaced by src/app.py lines 99-105. -/
structure CgmSummary where
  tir : PyNum
  mean_glu : PyNum
  cv : Option PyRNum
  lows : ℕ
  highs : ℕ

/-- The CGM aggregation block (src/app.py lines 96-105). -/
noncomputable def cgmAggregate (rows : List CgmRow) : CgmSummary :=
  ⟨cgmTir rows, cgmMeanGlu rows, cgmCv rows, cgmLows rows, cgmHighs rows⟩

/-- The lab row used by the order-sensitivity counterexample and witness:
a well-formed panel at timestamp 0 with fasting insulin 10. -/
def rowA : LabRow :=
  ⟨0, .num 50, .num 40, .num 45, .num 220, .num 4, .num 30, true,
   .num 100, .num 10, .num 7⟩

/-- Like `rowA` (same timestamp 0) but with fasting insulin 20, so its
HOMA-IR score differs. -/
def rowB : LabRow :=
  ⟨0, .num 50, .num 40, .num 45, .num 220, .num 4, .num 30, true,
   .num 100, .num 20, .num 7⟩

/-- Like `rowA` but at timestamp 1. -/
def rowC : LabRow :=
  ⟨1, .num 50, .num 40, .num 45, .num 220, .num 4, .num 30, true,
   .num 100, .num 10, .num 7⟩

/-- Helper: `fib4` on four actual numbers, as a single guarded equation. -/
theorem fib4_num (a s l p : ℚ) :
    fib4 (.num a) (.num s) (.num l) (.num p)
      = if l ≤ 0 ∨ p ≤ 0 then .null else .num ((a * s) / (p * Real.sqrt l)) := by
  simp [fib4, PyNum.leZero]

/-- Helper: the sum of a 0/1 indicator column is the count of the rows
satisfying the predicate. -/
theorem sum_indicator_eq_countP (P : ℚ → Prop) [DecidablePred P] (gs : List ℚ) :
    (gs.map (fun g => if P g then (1 : ℚ) else 0)).sum
      = ((gs.countP (fun g => decide (P g)) : ℕ) : ℚ) := by
  induction gs with
  | nil => simp
  | cons g gs ih =>
      by_cases h : P g
      · simp [List.countP_cons, h, ih]
        ring
      · simp [List.countP_cons, h, ih]

/-- C1: for non-null numeric arguments, `fib4` returns null exactly when
`alt <= 0` or `platelets <= 0`, and otherwise returns exactly
`(age * ast) / (platelets * sqrt(alt))`; with any null argument it returns
null. -/
theorem C1_fib4_contract (a s l p : ℚ) :
    (fib4 (.num a) (.num s) (.num l) (.num p) = .null ↔ l ≤ 0 ∨ p ≤ 0)
    ∧ (0 < l → 0 < p →
        fib4 (.num a) (.num s) (.num l) (.num p)
          = .num ((a * s) / (p * Real.sqrt l)))
    ∧ (∀ x y z : PyNum, fib4 .null x y z = .null ∧ fib4 x .null y z = .null
        ∧ fib4 x y .null z = .null ∧ fib4 x y z .null = .null) := by
  refine ⟨?_, ?_, ?_⟩
  · rw [fib4_num]
    by_cases h : l ≤ 0 ∨ p ≤ 0
    · simp [h]
    · simp [h]
  · intro hl hp
    rw [fib4_num, if_neg]
    push_neg
    exact ⟨hl, hp⟩
  · intro x y z
    refine ⟨?_, ?_, ?_, ?_⟩ <;> simp [fib4]

/-- C1 witness: `fib4(50, 40, 1, 220) = 50*40/(220*sqrt 1) = 100/11`. -/
theorem C1_fib4_contract_witness :
    fib4 (.num 50) (.num 40) (.num 1) (.num 220) = .num (100/11) := by
  have h := (C1_fib4_contract 50 40 1 220).2.1 (by norm_num) (by norm_num)
  rw [h, show ((1:ℚ):ℝ) = 1 by norm_num, Real.sqrt_one]
  norm_num

/-- C2 (code bug): `nfs` called with non-null arguments and `alt == 0`
raises `ZeroDivisionError` (CPython float semantics of the unguarded
`ast/alt`), instead of returning null or a defined sentinel. -/
theorem C2_nfs_zero_alt_raises :
    nfs (.num 50) (.num 30) true (.num 40) (.num 0) (.num 220) (.num (21/5))
      = .raised := by
  decide

/-- C3: both categorizers return the null placeholder (the spec's Unknown,
realised as the string of the em-dash) on a null score, Low strictly below
the band, Indeterminate on the closed band with both endpoints included,
and High strictly above it. -/
theorem C3_categorize_bands (x : ℝ) (q : ℚ) :
    categorize_fib4 .null = "—"
    ∧ (x < 13/10 → categorize_fib4 (.num x) = "Low")
    ∧ (13/10 ≤ x → x ≤ 267/100 → categorize_fib4 (.num x) = "Indeterminate")
    ∧ (267/100 < x → categorize_fib4 (.num x) = "High")
    ∧ categorize_nfs .null = "—"
    ∧ (q < -1455/1000 → categorize_nfs (.num q) = "Low")
    ∧ (-1455/1000 ≤ q → q ≤ 676/1000 → categorize_nfs (.num q) = "Indeterminate")
    ∧ (676/1000 < q → categorize_nfs (.num q) = "High") := by
  refine ⟨rfl, fun h => ?_, fun h1 h2 => ?_, fun h => ?_,
          rfl, fun h => ?_, fun h1 h2 => ?_, fun h => ?_⟩
  · simp [categorize_fib4, h]
  · simp [categorize_fib4, not_lt.mpr h1, h2]
  · have h1 : ¬ x < 13/10 := not_lt.mpr (le_trans (by norm_num) (le_of_lt h))
    have h2 : ¬ x ≤ 267/100 := not_le.mpr h
    simp [categorize_fib4, h1, h2]
  · simp [categorize_nfs, h]
  · simp [categorize_nfs, not_lt.mpr h1, h2]
  · have h1 : ¬ q < -1455/1000 := not_lt.mpr (le_trans (by norm_num) (le_of_lt h))
    have h2 : ¬ q ≤ 676/1000 := not_le.mpr h
    simp [categorize_nfs, h1, h2]

/-- C3 witness: the shared boundary values land in Indeterminate. -/
theorem C3_categorize_bands_witness :
    categorize_fib4 (.num ((13:ℝ)/10)) = "Indeterminate"
    ∧ categorize_nfs (.num ((676:ℚ)/1000)) = "Indeterminate" :=
  ⟨(C3_categorize_bands ((13:ℝ)/10) 0).2.2.1 le_rfl (by norm_num),
   (C3_categorize_bands 0 ((676:ℚ)/1000)).2.2.2.2.2.2.1 (by norm_num) le_rfl⟩

/-- C4: in the lab-history aggregator, a row whose ALT cell failed to parse
(a `nan` cell, pandas' null) while the other cells are numbers (platelets
positive) yields FIB4 and NFS equal to `nan` (the null of the float track)
but numeric HOMA-IR and eAG, and the row is retained in the
timestamp-sorted output. -/
theorem C4_malformed_row (rows : List LabRow) (r : LabRow)
    (a s b al p g i c : ℚ)
    (hr : r ∈ rows) (halt : r.ALT = .nan)
    (hage : r.age_years = .num a) (hast : r.AST = .num s)
    (hbmi : r.BMI = .num b) (halb : r.albumin_g_dL = .num al)
    (hplate : r.platelets_10e9_L = .num p) (hp : 0 < p)
    (hglu : r.fasting_glucose_mg_dL = .num g)
    (hins : r.fasting_insulin_u_mL = .num i)
    (ha1c : r.HbA1c_pct = .num c) :
    scoreRow r ∈ labsAggregate rows
    ∧ (scoreRow r).FIB4 = PyRNum.nan
    ∧ (scoreRow r).NFS = NfsResult.ret PyNum.nan
    ∧ (scoreRow r).HOMA_IR = PyNum.num (i * g / 405)
    ∧ (scoreRow r).eAG_mg_dl = PyNum.num (287/10 * c - 467/10)
    ∧ (labsAggregate rows).length = rows.length
    ∧ List.Pairwise (fun x y : LabOut => x.timestamp ≤ y.timestamp)
        (labsAggregate rows) := by
  refine ⟨?_, ?_, ?_, ?_, ?_, ?_, ?_⟩
  · exact List.mem_map_of_mem scoreRow
      (((List.perm_insertionSort labLE rows).mem_iff).mpr hr)
  · show fib4 r.age_years r.AST r.ALT r.platelets_10e9_L = PyRNum.nan
    rw [hage, hast, halt, hplate]
    simp [fib4, PyNum.leZero, not_le.mpr hp]
  · show nfs r.age_years r.BMI r.has_t2d r.AST r.ALT r.platelets_10e9_L
        r.albumin_g_dL = NfsResult.ret PyNum.nan
    rw [hage, hbmi, hast, halt, hplate, halb]
    simp [nfs]
  · show homa_ir r.fasting_glucose_mg_dL r.fasting_insulin_u_mL
        = PyNum.num (i * g / 405)
    rw [hglu, hins]
    simp [homa_ir]
  · show eAG_from_a1c r.HbA1c_pct = PyNum.num (287/10 * c - 467/10)
    rw [ha1c]
    rfl
  · show ((labsSort rows).map scoreRow).length = rows.length
    rw [List.length_map]
    exact (List.perm_insertionSort labLE rows).length_eq
  · have hs : List.Sorted labLE (labsSort rows) :=
      List.sorted_insertionSort labLE rows
    exact (List.pairwise_map).mpr hs

/-- C4 witness: a one-row history whose ALT cell is `nan`. -/
theorem C4_malformed_row_witness :
    scoreRow ⟨0, .num 50, .num 40, .nan, .num 220, .num 4, .num 30, true,
      .num 100, .num 10, .num 7⟩ ∈ labsAggregate
      [⟨0, .num 50, .num 40, .nan, .num 220, .num 4, .num 30, true,
        .num 100, .num 10, .num 7⟩]
    ∧ (scoreRow ⟨0, .num 50, .num 40, .nan, .num 220, .num 4, .num 30, true,
        .num 100, .num 10, .num 7⟩).FIB4 = PyRNum.nan
    ∧ (scoreRow ⟨0, .num 50, .num 40, .nan, .num 220, .num 4, .num 30, true,
        .num 100, .num 10, .num 7⟩).NFS = NfsResult.ret PyNum.nan
    ∧ (scoreRow ⟨0, .num 50, .num 40, .nan, .num 220, .num 4, .num 30, true,
        .num 100, .num 10, .num 7⟩).HOMA_IR = PyNum.num (10 * 100 / 405) := by
  have h := C4_malformed_row
    [⟨0, .num 50, .num 40, .nan, .num 220, .num 4, .num 30, true,
      .num 100, .num 10, .num 7⟩]
    ⟨0, .num 50, .num 40, .nan, .num 220, .num 4, .num 30, true,
      .num 100, .num 10, .num 7⟩
    50 40 30 4 220 100 10 7
    (by simp) rfl rfl rfl rfl rfl rfl (by norm_num) rfl rfl rfl
  exact ⟨h.1, h.2.1, h.2.2.1, h.2.2.2.1⟩

/-- C5 counterexample: on the series 65, 75, 185, 120 the aggregated
meanGlucose is 111.2 (the exact mean 111.25 rounded to one decimal, ties to
even), not the 111.25 the claim states. -/
theorem C5_mean_counterexample :
    (cgmAggregate [⟨0,65⟩,⟨1,75⟩,⟨2,185⟩,⟨3,120⟩]).mean_glu ≠ PyNum.num (445/4)
    ∧ (cgmAggregate [⟨0,65⟩,⟨1,75⟩,⟨2,185⟩,⟨3,120⟩]).mean_glu
        = PyNum.num (556/5) := by
  have hg : cgmGlucose [⟨0,65⟩,⟨1,75⟩,⟨2,185⟩,⟨3,120⟩] = [65, 75, 185, 120] := by
    decide
  have e3 : listMean (cgmGlucose [⟨0,65⟩,⟨1,75⟩,⟨2,185⟩,⟨3,120⟩])
      = PyNum.num (445/4) := by
    rw [hg, listMean]
    norm_num
  have hm : (cgmAggregate [⟨0,65⟩,⟨1,75⟩,⟨2,185⟩,⟨3,120⟩]).mean_glu
      = PyNum.num (556/5) := by
    show cgmMeanGlu [⟨0,65⟩,⟨1,75⟩,⟨2,185⟩,⟨3,120⟩] = PyNum.num (556/5)
    simp only [cgmMeanGlu, e3]
    norm_num [round1, roundHalfEven, round_eq]
  refine ⟨by rw [hm]; norm_num, hm⟩

/-- C5 (amended): the CGM aggregator classifies in-range as the inclusive
band 70..180, reports tir as the rounded percentage of in-range readings
and mean_glu as the rounded mean, and counts readings below 70 and above
250; on the series 65, 75, 185, 120 this gives tir 50.0, mean 111.2 (not
111.25: rounding to one decimal is in effect, ties to even), lows 1,
highs 0. -/
theorem C5_cgm_summary (rows : List CgmRow) (h : rows ≠ []) :
    cgmTir rows = .num (round1 (100 *
        (((cgmGlucose rows).countP (fun g => decide (70 ≤ g ∧ g ≤ 180)) : ℕ) /
          (rows.length : ℚ))))
    ∧ cgmMeanGlu rows = .num (round1 ((cgmGlucose rows).sum / (rows.length : ℚ)))
    ∧ cgmLows rows = (cgmGlucose rows).countP (fun g => decide (g < 70))
    ∧ cgmHighs rows = (cgmGlucose rows).countP (fun g => decide (g > 250))
    ∧ (cgmAggregate [⟨0,65⟩,⟨1,75⟩,⟨2,185⟩,⟨3,120⟩]).tir = PyNum.num 50
    ∧ (cgmAggregate [⟨0,65⟩,⟨1,75⟩,⟨2,185⟩,⟨3,120⟩]).mean_glu
        = PyNum.num (556/5)
    ∧ (cgmAggregate [⟨0,65⟩,⟨1,75⟩,⟨2,185⟩,⟨3,120⟩]).lows = 1
    ∧ (cgmAggregate [⟨0,65⟩,⟨1,75⟩,⟨2,185⟩,⟨3,120⟩]).highs = 0 := by
  have hlen : (cgmGlucose rows).length = rows.length := by
    rw [cgmGlucose, List.length_map]
    exact (List.perm_insertionSort cgmLE rows).length_eq
  have hlen2 : (cgmInRange rows).length = rows.length := by
    rw [cgmInRange, List.length_map, hlen]
  have hne : rows.length ≠ 0 := fun h0 => h (List.length_eq_zero.mp h0)
  refine ⟨?_, ?_, rfl, rfl, ?_, ?_,
    by show cgmLows [⟨0,65⟩,⟨1,75⟩,⟨2,185⟩,⟨3,120⟩] = 1; decide,
    by show cgmHighs [⟨0,65⟩,⟨1,75⟩,⟨2,185⟩,⟨3,120⟩] = 0; decide⟩
  · rw [cgmTir, listMean, if_neg (by rw [hlen2]; exact hne), hlen2]
    rw [cgmInRange, sum_indicator_eq_countP (fun g => 70 ≤ g ∧ g ≤ 180)]
  · rw [cgmMeanGlu, listMean, if_neg (by rw [hlen]; exact hne), hlen]
  · have hg2 : cgmInRange [⟨0,65⟩,⟨1,75⟩,⟨2,185⟩,⟨3,120⟩] = [0, 1, 0, 1] := by
      decide
    have e2 : listMean (cgmInRange [⟨0,65⟩,⟨1,75⟩,⟨2,185⟩,⟨3,120⟩])
        = PyNum.num (1/2) := by
      rw [hg2, listMean]
      norm_num
    show cgmTir [⟨0,65⟩,⟨1,75⟩,⟨2,185⟩,⟨3,120⟩] = PyNum.num 50
    simp only [cgmTir, e2]
    norm_num [round1, roundHalfEven, round_eq]
  · have hg3 : cgmGlucose [⟨0,65⟩,⟨1,75⟩,⟨2,185⟩,⟨3,120⟩]
        = [65, 75, 185, 120] := by
      decide
    have e3 : listMean (cgmGlucose [⟨0,65⟩,⟨1,75⟩,⟨2,185⟩,⟨3,120⟩])
        = PyNum.num (445/4) := by
      rw [hg3, listMean]
      norm_num
    show cgmMeanGlu [⟨0,65⟩,⟨1,75⟩,⟨2,185⟩,⟨3,120⟩] = PyNum.num (556/5)
    simp only [cgmMeanGlu, e3]
    norm_num [round1, roundHalfEven, round_eq]

/-- C5 witness: the amended summary at the claim's own series. -/
theorem C5_cgm_summary_witness :
    (cgmAggregate [⟨0,65⟩,⟨1,75⟩,⟨2,185⟩,⟨3,120⟩]).tir = PyNum.num 50
    ∧ (cgmAggregate [⟨0,65⟩,⟨1,75⟩,⟨2,185⟩,⟨3,120⟩]).lows = 1 :=
  ⟨(C5_cgm_summary [⟨0,65⟩,⟨1,75⟩,⟨2,185⟩,⟨3,120⟩] (by simp)).2.2.2.2.1,
   (C5_cgm_summary [⟨0,65⟩,⟨1,75⟩,⟨2,185⟩,⟨3,120⟩] (by simp)).2.2.2.2.2.2.1⟩

/-- C6 counterexample: the two-reading series with both glucose values equal
to 0.02 has nonzero mean 0.02, yet the code's cv is None, because the guard
tests the truthiness of the ROUNDED mean (0.0, falsy), not of the mean. -/
theorem C6_cv_counterexample :
    cgmCv [⟨0, 1/50⟩, ⟨1, 1/50⟩] = none
    ∧ listMean (cgmGlucose [⟨0, 1/50⟩, ⟨1, 1/50⟩]) = PyNum.num (1/50)
    ∧ (1/50 : ℚ) ≠ 0 := by
  have hg : cgmGlucose [⟨0, 1/50⟩, ⟨1, 1/50⟩] = [1/50, 1/50] := by
    simp [cgmGlucose, cgmSort, List.insertionSort, List.orderedInsert, cgmLE]
  have hm : listMean (cgmGlucose [⟨0, 1/50⟩, ⟨1, 1/50⟩]) = PyNum.num (1/50) := by
    rw [hg, listMean]
    norm_num
  have hmg : cgmMeanGlu [⟨0, 1/50⟩, ⟨1, 1/50⟩] = PyNum.num 0 := by
    simp only [cgmMeanGlu, hm]
    norm_num [round1, roundHalfEven, round_eq]
  refine ⟨?_, hm, by norm_num⟩
  rw [cgmCv, hmg]
  simp [pyTruthy]

/-- C6 (amended): for a non-empty series, the cv is None exactly when the
mean rounded to one decimal is 0; when that rounded mean is nonzero the cv
is the rounded value of `100 * std / mean` (with the unrounded mean, and
`nan` when the sample std is `nan`). -/
theorem C6_cv_guard (rows : List CgmRow) (h : rows ≠ []) :
    (cgmCv rows = none ↔ round1 ((cgmGlucose rows).sum / (rows.length : ℚ)) = 0)
    ∧ (round1 ((cgmGlucose rows).sum / (rows.length : ℚ)) ≠ 0 →
        cgmCv rows = some (match cgmStd rows with
          | PyRNum.num sd => PyRNum.num (round1R (100 * sd /
              (((cgmGlucose rows).sum / (rows.length : ℚ) : ℚ) : ℝ)))
          | PyRNum.null => PyRNum.nan
          | PyRNum.nan => PyRNum.nan)) := by
  have hlen : (cgmGlucose rows).length = rows.length := by
    rw [cgmGlucose, List.length_map]
    exact (List.perm_insertionSort cgmLE rows).length_eq
  have hne : rows.length ≠ 0 := fun h0 => h (List.length_eq_zero.mp h0)
  have hm : listMean (cgmGlucose rows)
      = PyNum.num ((cgmGlucose rows).sum / (rows.length : ℚ)) := by
    rw [listMean, if_neg (by rw [hlen]; exact hne), hlen]
  have hmg : cgmMeanGlu rows
      = PyNum.num (round1 ((cgmGlucose rows).sum / (rows.length : ℚ))) := by
    simp only [cgmMeanGlu, hm]
  constructor
  · by_cases h0 : round1 ((cgmGlucose rows).sum / (rows.length : ℚ)) = 0
    · simp [cgmCv, hmg, pyTruthy, h0]
    · simp [cgmCv, hmg, pyTruthy, h0]
  · intro h0
    have ht : pyTruthy (cgmMeanGlu rows) = true := by
      rw [hmg]
      simp [pyTruthy, h0]
    rw [cgmCv, ht, if_pos rfl, hm]
    cases hstd : cgmStd rows with
    | null => rfl
    | nan => rfl
    | num sd => rfl

/-- C6 witness: a single-reading series with mean 100 gets cv `nan` (the
std of one sample is `nan`), not None. -/
theorem C6_cv_guard_witness : cgmCv [⟨0, (100:ℚ)⟩] = some PyRNum.nan := by
  have hg : cgmGlucose [⟨0, (100:ℚ)⟩] = [100] := by decide
  have h := (C6_cv_guard [⟨0, (100:ℚ)⟩] (by simp)).2
    (by rw [hg]; norm_num [round1, roundHalfEven, round_eq])
  have hstd : cgmStd [⟨0, (100:ℚ)⟩] = PyRNum.nan := by
    rw [cgmStd, hg]
    norm_num
  rw [h, hstd]

/-- C7 counterexample: on an empty CGM table the summary does not have all
fields null: the cv is the float `nan` (inside `some`, not the None the
guard would produce) and the two counts are the number 0. -/
theorem C7_empty_counterexample :
    cgmCv ([] : List CgmRow) ≠ none
    ∧ cgmCv ([] : List CgmRow) = some PyRNum.nan
    ∧ cgmLows [] = 0 ∧ cgmHighs [] = 0 := by
  have hcv : cgmCv ([] : List CgmRow) = some PyRNum.nan := rfl
  exact ⟨by rw [hcv]; simp, hcv, rfl, rfl⟩

/-- C7 (amended): on an empty table the labs aggregator returns the empty
sequence, and the CGM aggregator returns a summary whose tir and mean are
`nan`, whose cv is the float `nan`, and whose two counts are 0; neither
signals a fault (both are total functions of the embedding). -/
theorem C7_empty_dataset :
    labsAggregate [] = []
    ∧ cgmAggregate [] = ⟨PyNum.nan, PyNum.nan, some PyRNum.nan, 0, 0⟩ :=
  ⟨rfl, rfl⟩

/-- C8 counterexample: two lab rows sharing a timestamp but with different
insulin values: swapping the input order permutes the (stably) sorted
output, so the aggregator is not invariant under permutation of its
input. -/
theorem C8_order_counterexample :
    labsAggregate [rowA, rowB] ≠ labsAggregate [rowB, rowA] := by
  intro h
  have h1 : labsSort [rowA, rowB] = [rowA, rowB] := by
    simp [labsSort, List.insertionSort, List.orderedInsert, labLE, rowA, rowB]
  have h2 : labsSort [rowB, rowA] = [rowB, rowA] := by
    simp [labsSort, List.insertionSort, List.orderedInsert, labLE, rowA, rowB]
  rw [labsAggregate, labsAggregate, h1, h2] at h
  simp only [List.map] at h
  injection h with hh _
  have hA : (scoreRow rowA).HOMA_IR = PyNum.num (10 * 100 / 405) := by
    simp [scoreRow, rowA, homa_ir]
  have hB : (scoreRow rowB).HOMA_IR = PyNum.num (20 * 100 / 405) := by
    simp [scoreRow, rowB, homa_ir]
  have hc := congrArg LabOut.HOMA_IR hh
  rw [hA, hB] at hc
  simp only [PyNum.num.injEq] at hc
  norm_num at hc

/-- C8 (amended): the lab-history aggregator is invariant under permutation
of its input provided the timestamps are pairwise distinct (with duplicate
timestamps only the set of rows is preserved, not their order), and the CGM
summary is invariant under any permutation of its input; both are pure
functions, so re-running on the same input trivially reproduces the
output. -/
theorem C8_perm_invariance :
    (∀ l1 l2 : List LabRow, l1.Perm l2 →
        (l1.map (fun r => r.timestamp)).Nodup →
        labsAggregate l1 = labsAggregate l2)
    ∧ (∀ c1 c2 : List CgmRow, c1.Perm c2 → cgmAggregate c1 = cgmAggregate c2) := by
  constructor
  · intro l1 l2 hp hnd
    suffices hs : labsSort l1 = labsSort l2 by
      rw [labsAggregate, labsAggregate, hs]
    have hperm : (labsSort l1).Perm (labsSort l2) :=
      (List.perm_insertionSort labLE l1).trans
        (hp.trans (List.perm_insertionSort labLE l2).symm)
    have hsort1 : List.Sorted labLE (labsSort l1) := List.sorted_insertionSort labLE l1
    have hsort2 : List.Sorted labLE (labsSort l2) := List.sorted_insertionSort labLE l2
    have hnd1 : ((labsSort l1).map (fun r => r.timestamp)).Nodup :=
      (((List.perm_insertionSort labLE l1).map (fun r => r.timestamp)).nodup_iff).mpr hnd
    have hnd2 : ((labsSort l2).map (fun r => r.timestamp)).Nodup := by
      refine (((List.perm_insertionSort labLE l2).map
        (fun r => r.timestamp)).nodup_iff).mpr ?_
      exact ((hp.map (fun r => r.timestamp)).nodup_iff).mp hnd
    have hne1 : List.Pairwise (fun a b : LabRow => a.timestamp ≠ b.timestamp)
        (labsSort l1) := List.pairwise_map.mp hnd1
    have hne2 : List.Pairwise (fun a b : LabRow => a.timestamp ≠ b.timestamp)
        (labsSort l2) := List.pairwise_map.mp hnd2
    have hlt1 : List.Pairwise (fun a b : LabRow => a.timestamp < b.timestamp)
        (labsSort l1) :=
      (hsort1.and hne1).imp (fun hab => lt_of_le_of_ne hab.1 hab.2)
    have hlt2 : List.Pairwise (fun a b : LabRow => a.timestamp < b.timestamp)
        (labsSort l2) :=
      (hsort2.and hne2).imp (fun hab => lt_of_le_of_ne hab.1 hab.2)
    haveI : IsAntisymm LabRow (fun a b => a.timestamp < b.timestamp) :=
      ⟨fun _ _ ha hb => absurd hb (not_lt.mpr (le_of_lt ha))⟩
    exact List.eq_of_perm_of_sorted hperm hlt1 hlt2
  · intro c1 c2 hp
    have hg : (cgmGlucose c1).Perm (cgmGlucose c2) := by
      rw [cgmGlucose, cgmGlucose, cgmSort, cgmSort]
      exact ((List.perm_insertionSort cgmLE c1).trans
        (hp.trans (List.perm_insertionSort cgmLE c2).symm)).map
        (fun r => r.glucose_mg_dl)
    have hsum : (cgmGlucose c1).sum = (cgmGlucose c2).sum := hg.sum_eq
    have hlen : (cgmGlucose c1).length = (cgmGlucose c2).length := hg.length_eq
    have hmean : listMean (cgmGlucose c1) = listMean (cgmGlucose c2) := by
      rw [listMean, listMean, hsum, hlen]
    have hinr : (cgmInRange c1).Perm (cgmInRange c2) := hg.map _
    have hmean2 : listMean (cgmInRange c1) = listMean (cgmInRange c2) := by
      rw [listMean, listMean, hinr.sum_eq, hinr.length_eq]
    have htir : cgmTir c1 = cgmTir c2 := by rw [cgmTir, cgmTir, hmean2]
    have hmg : cgmMeanGlu c1 = cgmMeanGlu c2 := by
      rw [cgmMeanGlu, cgmMeanGlu, hmean]
    have hstd : cgmStd c1 = cgmStd c2 := by
      rw [cgmStd, cgmStd, hlen, hsum,
        List.Perm.sum_eq (hg.map (fun (g : ℚ) =>
          ((g : ℝ) - (((cgmGlucose c2).sum : ℚ) : ℝ) / (cgmGlucose c2).length) ^ 2))]
    have hcv : cgmCv c1 = cgmCv c2 := by
      rw [cgmCv, cgmCv, hmg, hstd, hmean]
    have hlows : cgmLows c1 = cgmLows c2 := by
      rw [cgmLows, cgmLows, hg.countP_eq]
    have hhighs : cgmHighs c1 = cgmHighs c2 := by
      rw [cgmHighs, cgmHighs, hg.countP_eq]
    rw [cgmAggregate, cgmAggregate, htir, hmg, hcv, hlows, hhighs]

/-- C8 witness: a two-row history with distinct timestamps, and a two-row
CGM series, each fed in both orders. -/
theorem C8_perm_invariance_witness :
    labsAggregate [rowA, rowC] = labsAggregate [rowC, rowA]
    ∧ cgmAggregate [⟨0, 80⟩, ⟨1, 90⟩] = cgmAggregate [⟨1, 90⟩, ⟨0, 80⟩] :=
  ⟨C8_perm_invariance.1 [rowA, rowC] [rowC, rowA] (by decide) (by decide),
   C8_perm_invariance.2 [⟨0, 80⟩, ⟨1, 90⟩] [⟨1, 90⟩, ⟨0, 80⟩] (by decide)⟩

/-- C9 (code bug): the metric guard is Python truthiness of the score, so a
computed score equal to 0.0 (here HOMA-IR at glucose 120, insulin 0) is
rendered as the em-dash placeholder exactly as a null score is, although
the claim (and the spec, for which null never means zero) requires a
formatted 0.00. -/
theorem C9_zero_score_renders_dash :
    homa_ir (.num 120) (.num 0) = PyNum.num 0
    ∧ renderScore2 (homa_ir (.num 120) (.num 0)) = Rendered.dash
    ∧ renderScore2 PyNum.null = Rendered.dash := by
  have h0 : homa_ir (.num 120) (.num 0) = PyNum.num 0 := by
    simp [homa_ir]
  refine ⟨h0, ?_, rfl⟩
  rw [h0]
  simp [renderScore2, pyTruthy]

/-- C10 counterexample: the single-reading series at glucose 0.02 has
nonzero mean, the sample std is `nan` as the claim says, but the cv is
None (the rounded mean 0.0 is falsy), not the `nan` the claim asserts. -/
theorem C10_single_reading_counterexample :
    cgmStd [⟨0, 1/50⟩] = PyRNum.nan
    ∧ cgmCv [⟨0, 1/50⟩] = none
    ∧ listMean (cgmGlucose [⟨0, 1/50⟩]) = PyNum.num (1/50)
    ∧ (1/50 : ℚ) ≠ 0 := by
  have hg : cgmGlucose [⟨0, 1/50⟩] = [1/50] := by
    simp [cgmGlucose, cgmSort, List.insertionSort, List.orderedInsert]
  have hstd : cgmStd [⟨0, 1/50⟩] = PyRNum.nan := by
    rw [cgmStd, hg]
    norm_num
  have hm : listMean (cgmGlucose [⟨0, 1/50⟩]) = PyNum.num (1/50) := by
    rw [hg, listMean]
    norm_num
  have hmg : cgmMeanGlu [⟨0, 1/50⟩] = PyNum.num 0 := by
    simp only [cgmMeanGlu, hm]
    norm_num [round1, roundHalfEven, round_eq]
  refine ⟨hstd, ?_, hm, by norm_num⟩
  rw [cgmCv, hmg]
  simp [pyTruthy]

/-- C10 (amended): the std uses the sample convention, so a single-reading
series has std `nan`; the cv is then the float `nan` (never 0) when the
rounded mean is nonzero, and None when the rounded mean is 0. -/
theorem C10_sample_std_single (t : ℤ) (g : ℚ) :
    cgmStd [⟨t, g⟩] = PyRNum.nan
    ∧ (round1 g ≠ 0 → cgmCv [⟨t, g⟩] = some PyRNum.nan)
    ∧ (round1 g = 0 → cgmCv [⟨t, g⟩] = none) := by
  have hg : cgmGlucose [⟨t, g⟩] = [g] := by
    simp [cgmGlucose, cgmSort, List.insertionSort, List.orderedInsert]
  have hstd : cgmStd [⟨t, g⟩] = PyRNum.nan := by
    rw [cgmStd, hg]
    norm_num
  have hm : listMean (cgmGlucose [⟨t, g⟩]) = PyNum.num g := by
    rw [hg, listMean]
    norm_num
  have hmg : cgmMeanGlu [⟨t, g⟩] = PyNum.num (round1 g) := by
    simp only [cgmMeanGlu, hm]
  refine ⟨hstd, fun h0 => ?_, fun h0 => ?_⟩
  · have ht : pyTruthy (cgmMeanGlu [⟨t, g⟩]) = true := by
      rw [hmg]
      simp [pyTruthy, h0]
    rw [cgmCv, ht, if_pos rfl, hstd, hm]
  · rw [cgmCv, hmg]
    simp [pyTruthy, h0]

/-- C10 witness: a single reading of 90 gives std `nan` and cv `nan`. -/
theorem C10_sample_std_single_witness :
    cgmStd [⟨0, (90:ℚ)⟩] = PyRNum.nan
    ∧ cgmCv [⟨0, (90:ℚ)⟩] = some PyRNum.nan :=
  ⟨(C10_sample_std_single 0 90).1,
   (C10_sample_std_single 0 90).2.1 (by norm_num [round1, roundHalfEven, round_eq])⟩
